import Mathlib

/-!
Verification of the encrypted-chat pipeline (chat store hook and API service).

The definitions below are a shallow embedding of the JavaScript source:
JS `Map`s become association lists that preserve insertion order (as JS
`Map` iteration does), fallible calls become `Option`/oracle parameters,
and timers become explicit logs of scheduled delays.
-/

/-- JS `Map.get`: value of the first (unique) entry with the given key. -/
def mapGet {α : Type} : List (String × α) → String → Option α
  | [], _ => none
  | (k2, v) :: rest, k => if k2 == k then some v else mapGet rest k

/-- JS `Map.set`: overwrite in place when the key exists (keeping its
position in iteration order), otherwise append at the end. -/
def mapSet {α : Type} : List (String × α) → String → α → List (String × α)
  | [], k, v => [(k, v)]
  | (k2, v2) :: rest, k, v =>
    if k2 == k then (k2, v) :: rest else (k2, v2) :: mapSet rest k v

/-- JS `Map.delete`: remove the entry with the given key (keys are unique,
so removing the first occurrence models it). -/
def mapDelete {α : Type} : List (String × α) → String → List (String × α)
  | [], _ => []
  | (k2, v) :: rest, k => if k2 == k then rest else (k2, v) :: mapDelete rest k

/-- `MAX_MESSAGES_IN_MEMORY` in useChatStore.js. -/
def MAX_MESSAGES_IN_MEMORY : Nat := 1000

/-- The `LRUCache` class of useChatStore.js: a JS `Map` (insertion-ordered
association list) plus a capacity bound. -/
structure LRUCache where
  maxSize : Nat
  cache : List (String × String)

/-- `LRUCache.get`: `null` when absent; when present, delete and re-insert
at the end (most recently used) and return the value. -/
def LRUCache.get (c : LRUCache) (k : String) : Option String × LRUCache :=
  match mapGet c.cache k with
  | none => (none, c)
  | some v => (some v, { c with cache := mapSet (mapDelete c.cache k) k v })

/-- `LRUCache.set`: if `size >= maxSize`, delete the first key (a no-op on an
empty map, where `keys().next().value` is `undefined`), then `Map.set`. -/
def LRUCache.set (c : LRUCache) (k : String) (v : String) : LRUCache :=
  if c.maxSize ≤ c.cache.length then
    { c with cache := mapSet c.cache.tail k v }
  else
    { c with cache := mapSet c.cache k v }

/-- `LRUCache.has`. -/
def LRUCache.hasKey (c : LRUCache) (k : String) : Bool :=
  (mapGet c.cache k).isSome

/-- One client-visible cache operation. -/
inductive CacheOp
  | getOp (k : String)
  | setOp (k : String) (v : String)

/-- Apply one operation to the cache (the value returned by `get` is
discarded; only the state matters for the size invariant). -/
def LRUCache.applyOp (c : LRUCache) : CacheOp → LRUCache
  | CacheOp.getOp k => (c.get k).2
  | CacheOp.setOp k v => c.set k v

/-- Run a sequence of cache operations. -/
def runOps (c : LRUCache) (ops : List CacheOp) : LRUCache :=
  ops.foldl LRUCache.applyOp c

theorem mapSet_length_le {α : Type} (m : List (String × α)) (k : String) (v : α) :
    (mapSet m k v).length ≤ m.length + 1 := by
  induction m with
  | nil => simp [mapSet]
  | cons hd t ih =>
    obtain ⟨k2, v2⟩ := hd
    by_cases hk : (k2 == k) = true
    · simp [mapSet, hk]
    · simp only [mapSet, if_neg hk, List.length_cons]
      omega

theorem mapDelete_length_of_get {α : Type} (m : List (String × α)) (k : String) (v : α)
    (h : mapGet m k = some v) : m.length = (mapDelete m k).length + 1 := by
  induction m with
  | nil => simp [mapGet] at h
  | cons hd t ih =>
    obtain ⟨k2, v2⟩ := hd
    by_cases hk : (k2 == k) = true
    · simp [mapGet, mapDelete, hk]
    · simp only [mapGet, mapDelete, if_neg hk] at h ⊢
      simp only [List.length_cons]
      have := ih h
      omega

theorem applyOp_size_le (c : LRUCache) (op : CacheOp) (hm : 1 ≤ c.maxSize)
    (h : c.cache.length ≤ c.maxSize) :
    (c.applyOp op).cache.length ≤ c.maxSize ∧ (c.applyOp op).maxSize = c.maxSize := by
  cases op with
  | getOp k =>
    cases hg : mapGet c.cache k with
    | none =>
      constructor
      · simpa [LRUCache.applyOp, LRUCache.get, hg] using h
      · simp [LRUCache.applyOp, LRUCache.get, hg]
    | some v =>
      have hlen := mapDelete_length_of_get c.cache k v hg
      have hset := mapSet_length_le (mapDelete c.cache k) k v
      constructor
      · simp only [LRUCache.applyOp, LRUCache.get, hg]
        omega
      · simp [LRUCache.applyOp, LRUCache.get, hg]
  | setOp k v =>
    by_cases hcap : c.maxSize ≤ c.cache.length
    · constructor
      · simp only [LRUCache.applyOp, LRUCache.set, if_pos hcap]
        have hset := mapSet_length_le c.cache.tail k v
        cases hc : c.cache with
        | nil =>
          rw [hc] at hset
          simp only [List.tail_nil, List.length_nil] at hset ⊢
          omega
        | cons hd t =>
          rw [hc] at hset h
          simp only [List.tail_cons] at hset ⊢
          simp only [List.length_cons] at h
          omega
      · simp [LRUCache.applyOp, LRUCache.set, if_pos hcap]
    · constructor
      · simp only [LRUCache.applyOp, LRUCache.set, if_neg hcap]
        have hset := mapSet_length_le c.cache k v
        omega
      · simp [LRUCache.applyOp, LRUCache.set, if_neg hcap]

theorem runOps_size_le (ops : List CacheOp) (c : LRUCache) (hm : 1 ≤ c.maxSize)
    (h : c.cache.length ≤ c.maxSize) :
    (runOps c ops).cache.length ≤ c.maxSize := by
  induction ops generalizing c with
  | nil => simpa [runOps] using h
  | cons op rest ih =>
    have step := applyOp_size_le c op hm h
    have hrec := ih (c.applyOp op) (step.2 ▸ hm) (step.2 ▸ step.1)
    simpa [runOps, step.2] using hrec

theorem mapSet_keys_of_mem {α : Type} (m : List (String × α)) (k : String) (v : α)
    (h : k ∈ m.map Prod.fst) : (mapSet m k v).map Prod.fst = m.map Prod.fst := by
  induction m with
  | nil => simp at h
  | cons hd t ih =>
    obtain ⟨k2, v2⟩ := hd
    by_cases hk : (k2 == k) = true
    · have heq : k2 = k := by simpa using hk
      simp [mapSet, heq]
    · have hne : k2 ≠ k := by simpa using hk
      have hmem : k ∈ t.map Prod.fst := by
        simp only [List.map_cons, List.mem_cons] at h
        rcases h with h | h
        · exact absurd h.symm hne
        · exact h
      simp [mapSet, hne, ih hmem]

/-- C2: over every sequence of get/set operations from an empty cache the
size never exceeds the capacity; and the concrete capacity-3 scenario
set(A), set(B), set(C), get(A), set(D) evicts exactly B, leaving C, A, D
in recency order with their values. -/
theorem c2_lru_capacity_bound_and_eviction_order (ops : List CacheOp) (n : Nat)
    (hn : 1 ≤ n) :
    (runOps { maxSize := n, cache := [] } ops).cache.length ≤ n ∧
    (runOps { maxSize := 3, cache := [] }
        [CacheOp.setOp "A" "va", CacheOp.setOp "B" "vb", CacheOp.setOp "C" "vc",
         CacheOp.getOp "A", CacheOp.setOp "D" "vd"]).cache
      = [("C", "vc"), ("A", "va"), ("D", "vd")] := by
  constructor
  · exact runOps_size_le ops _ hn (by simp)
  · rfl

/-- Witness for C2 at `ops = [set "A" "va"]`, capacity 1. -/
theorem c2_lru_capacity_bound_and_eviction_order_witness :
    (runOps { maxSize := 1, cache := [] } [CacheOp.setOp "A" "va"]).cache.length ≤ 1 ∧
    (runOps { maxSize := 3, cache := [] }
        [CacheOp.setOp "A" "va", CacheOp.setOp "B" "vb", CacheOp.setOp "C" "vc",
         CacheOp.getOp "A", CacheOp.setOp "D" "vd"]).cache
      = [("C", "vc"), ("A", "va"), ("D", "vd")] :=
  c2_lru_capacity_bound_and_eviction_order [CacheOp.setOp "A" "va"] 1 (by decide)

/-- C10 counterexample: with capacity 2 and entries A (least recent) then B,
`set("A", "3")` does NOT leave A at its old recency position: the size check
`size >= maxSize` fires even though the key is present, evicts the front
entry — A itself — and re-inserts A at the most-recent end. So the claim
that set on a present key never refreshes the key's recency position is
false at this input. -/
theorem c10_counterexample_set_refreshes_lru_key :
    ((((LRUCache.mk 2 []).set "A" "1").set "B" "2").set "A" "3").cache
      = [("B", "2"), ("A", "3")] := rfl

/-- C10 (amended): below capacity, set on a present key overwrites the value
in place without refreshing its recency position; at capacity, set always
evicts the front (least-recently-used) entry first — when the present key is
not that front entry, an unrelated entry is evicted while the key keeps its
position among the survivors (and when the present key is itself the front
entry it is evicted and re-appended, becoming most recent, as the
counterexample shows). -/
theorem c10_set_existing_key_recency (n : Nat) (m rest : List (String × String))
    (k0 v0 k v : String)
    (hbelow : m.length < n) (hk : k ∈ m.map Prod.fst)
    (hcap : n ≤ rest.length + 1) (hk2 : k ∈ rest.map Prod.fst) :
    ((LRUCache.mk n m).set k v).cache.map Prod.fst = m.map Prod.fst ∧
    ((LRUCache.mk n ((k0, v0) :: rest)).set k v).cache.map Prod.fst
      = rest.map Prod.fst := by
  constructor
  · have hnot : ¬n ≤ m.length := by omega
    simp only [LRUCache.set, hnot, if_false]
    exact mapSet_keys_of_mem m k v hk
  · have hle : n ≤ ((k0, v0) :: rest).length := by
      simp only [List.length_cons]
      omega
    simp only [LRUCache.set, hle, if_true, List.tail_cons]
    exact mapSet_keys_of_mem rest k v hk2

/-- Witness for C10 (amended): capacity 2, below-capacity cache `[A]`,
at-capacity cache `[B, A, C]` with `A` present but not front. -/
theorem c10_set_existing_key_recency_witness :
    (((LRUCache.mk 2 [("A", "0")]).set "A" "9").cache.map Prod.fst
        = [("A", "0")].map Prod.fst) ∧
    (((LRUCache.mk 2 (("B", "1") :: [("A", "0"), ("C", "2")])).set "A" "9").cache.map
        Prod.fst = [("A", "0"), ("C", "2")].map Prod.fst) :=
  c10_set_existing_key_recency 2 [("A", "0")] [("A", "0"), ("C", "2")] "B" "1" "A" "9"
    (by decide) (by decide) (by decide) (by decide)

/-- Result of `encryptChatMessageAPI` (apiService.js): ciphertext plus the
KMS key version used. -/
structure EncryptResult where
  ciphertext : String
  kmsKeyVersionName : String
deriving DecidableEq

/-- A message object as persisted to the Firestore chat document by
`createNewChat` / `addMessageToChat` (useChatStore.js). -/
structure StoredMessage where
  id : String
  messageCiphertextKMS : String
  kmsKeyVersionName : String
  originalSender : String
  timestamp : Nat
deriving DecidableEq

/-- A chat document as persisted to Firestore. -/
structure ChatDoc where
  userId : String
  title : String
  messages : List StoredMessage
deriving DecidableEq

/-- JS `String.prototype.trim`: strip leading and trailing whitespace
(modelled structurally over the character list so the kernel can evaluate it). -/
def jsTrim (s : String) : String :=
  String.mk (((s.data.dropWhile Char.isWhitespace).reverse.dropWhile
    Char.isWhitespace).reverse)

/-- The title computed by `createNewChat`:
`firstMessageText.substring(0, 40) + (firstMessageText.length > 40 ? '...' : '')`. -/
def chatTitle (firstMessageText : String) : String :=
  String.mk (firstMessageText.data.take 40) ++
    (if 40 < firstMessageText.data.length then "..." else "")

/-- Outcome of a chat-mutator call: the document store afterwards (keyed by
chat id), the error surfaced (if any), and the returned chat id (if any). -/
structure MutationResult where
  store : List (String × ChatDoc)
  errorMsg : Option String
  returnedChatId : Option String
deriving DecidableEq

/-- `createNewChat` (useChatStore.js): reject missing user or empty trimmed
text; encrypt the trimmed text; `addDoc` a chat document with an EMPTY
message list; then `updateDoc`-append the first encrypted message. The
`encrypt` oracle returns `none` on failure; `addDocOk` / `updateDocOk` model
success of the two persistence calls. On any failure the function throws
(an error message is surfaced) and whatever was already persisted stays. -/
def createNewChatRun (userId firstMessageText : String)
    (encrypt : String → Option EncryptResult)
    (addDocOk updateDocOk : Bool)
    (chatId msgId : String) (ts : Nat)
    (store : List (String × ChatDoc)) : MutationResult :=
  if userId = "" then ⟨store, some "User not authenticated.", none⟩
  else if jsTrim firstMessageText = "" then ⟨store, some "Message cannot be empty.", none⟩
  else
    match encrypt (jsTrim firstMessageText) with
    | none => ⟨store, some "Failed to create chat.", none⟩
    | some er =>
      if addDocOk = false then ⟨store, some "Failed to create chat.", none⟩
      else
        let chatData : ChatDoc :=
          { userId := userId, title := chatTitle firstMessageText, messages := [] }
        let store1 := mapSet store chatId chatData
        if updateDocOk = false then ⟨store1, some "Failed to create chat.", none⟩
        else
          let firstMessageToStore : StoredMessage :=
            { id := msgId, messageCiphertextKMS := er.ciphertext,
              kmsKeyVersionName := er.kmsKeyVersionName,
              originalSender := "user", timestamp := ts }
          ⟨mapSet store1 chatId { chatData with messages := [firstMessageToStore] },
           none, some chatId⟩

/-- `addMessageToChat` (useChatStore.js): reject missing user/chat id or
empty trimmed text or missing sender; encrypt the trimmed text; one atomic
`updateDoc` array-append of the encrypted message to the existing document
(`not-found` when the chat does not exist). -/
def addMessageToChatRun (userId chatId text sender : String)
    (encrypt : String → Option EncryptResult) (updateDocOk : Bool)
    (msgId : String) (ts : Nat)
    (store : List (String × ChatDoc)) : MutationResult :=
  if userId = "" ∨ chatId = "" then ⟨store, some "User or chat ID missing", none⟩
  else if jsTrim text = "" ∨ sender = "" then ⟨store, some "Invalid message data.", none⟩
  else
    match encrypt (jsTrim text) with
    | none => ⟨store, some "Failed to send message.", none⟩
    | some er =>
      if updateDocOk = false then ⟨store, some "Failed to send message.", none⟩
      else
        match mapGet store chatId with
        | none => ⟨store, some "Failed to send message.", none⟩
        | some d =>
          let messageToStore : StoredMessage :=
            { id := msgId, messageCiphertextKMS := er.ciphertext,
              kmsKeyVersionName := er.kmsKeyVersionName,
              originalSender := sender, timestamp := ts }
          ⟨mapSet store chatId { d with messages := d.messages ++ [messageToStore] },
           none, none⟩

/-- `deleteChat` (useChatStore.js): reject missing user; purge the retry
counts of the chat's message ids (this happens BEFORE the store delete);
then `deleteDoc`. Returns the store, the retry-count map, and the error. -/
def deleteChatRun (userId chatId : String) (deleteDocOk : Bool)
    (chatMessageIds : List String)
    (retryCounts : List (String × Nat))
    (store : List (String × ChatDoc)) :
    List (String × ChatDoc) × List (String × Nat) × Option String :=
  if userId = "" then
    (store, retryCounts, some "User not authenticated. Cannot delete chat.")
  else
    let retry1 := chatMessageIds.foldl (fun r mid => mapDelete r mid) retryCounts
    if deleteDocOk = false then (store, retry1, some "Failed to delete chat.")
    else (mapDelete store chatId, retry1, none)

/-- C1 counterexample: creating a chat from plaintext "Hello" persists a
chat document whose `title` field is "Hello" — the plaintext itself (the
first 40 characters of it), stored in clear alongside the encrypted
message. So the claim that no plaintext or substring of it reaches the
document store is false at this input. -/
theorem c1_counterexample_title_is_plaintext :
    (createNewChatRun "u" "Hello" (fun _ => some ⟨"ct0", "kv0"⟩) true true
        "c1" "m1" 0 []).store.map (fun p => p.2.title) = ["Hello"] := by
  decide

/-- C1 (amended): for every accepted plaintext, the message objects handed
to the document store carry, derived from the plaintext, exactly the
ciphertext and key version returned by the crypto service's encrypt call —
but `createNewChat` additionally persists the chat `title`, which is the
first 40 characters of the plaintext in clear (with "..." appended when
longer). `addMessageToChat` persists only the encrypted message. -/
theorem c1_persisted_values (userId text sender chatId msgId : String) (ts : Nat)
    (encrypt : String → Option EncryptResult) (er : EncryptResult)
    (store : List (String × ChatDoc)) (d : ChatDoc)
    (hu : ¬userId = "") (ht : ¬jsTrim text = "") (he : encrypt (jsTrim text) = some er)
    (hc : ¬chatId = "") (hs : ¬sender = "") (hd : mapGet store chatId = some d) :
    (createNewChatRun userId text encrypt true true chatId msgId ts store).store
      = mapSet (mapSet store chatId
            { userId := userId, title := chatTitle text, messages := [] })
          chatId
          { userId := userId, title := chatTitle text,
            messages := [{ id := msgId, messageCiphertextKMS := er.ciphertext,
                           kmsKeyVersionName := er.kmsKeyVersionName,
                           originalSender := "user", timestamp := ts }] } ∧
    (addMessageToChatRun userId chatId text sender encrypt true msgId ts store).store
      = mapSet store chatId
          { d with messages := d.messages ++
              [{ id := msgId, messageCiphertextKMS := er.ciphertext,
                 kmsKeyVersionName := er.kmsKeyVersionName,
                 originalSender := sender, timestamp := ts }] } := by
  constructor
  · simp [createNewChatRun, hu, ht, he]
  · simp [addMessageToChatRun, hu, ht, he, hc, hs, hd]

/-- Witness for C1 (amended) at concrete inputs. -/
theorem c1_persisted_values_witness :
    (createNewChatRun "u" "Hello" (fun _ => some ⟨"ct0", "kv0"⟩) true true
        "c1id" "m1" 0 [("c1id", ⟨"u", "t", []⟩)]).store
      = mapSet (mapSet [("c1id", ⟨"u", "t", []⟩)] "c1id"
            { userId := "u", title := chatTitle "Hello", messages := [] })
          "c1id"
          { userId := "u", title := chatTitle "Hello",
            messages := [{ id := "m1", messageCiphertextKMS := "ct0",
                           kmsKeyVersionName := "kv0",
                           originalSender := "user", timestamp := 0 }] } ∧
    (addMessageToChatRun "u" "c1id" "Hello" "bot" (fun _ => some ⟨"ct0", "kv0"⟩) true
        "m1" 0 [("c1id", ⟨"u", "t", []⟩)]).store
      = mapSet [("c1id", ⟨"u", "t", []⟩)] "c1id"
          { userId := "u", title := "t",
            messages := ([] : List StoredMessage) ++
              [{ id := "m1", messageCiphertextKMS := "ct0",
                 kmsKeyVersionName := "kv0",
                 originalSender := "bot", timestamp := 0 }] } :=
  c1_persisted_values "u" "Hello" "bot" "c1id" "m1" 0 (fun _ => some ⟨"ct0", "kv0"⟩)
    ⟨"ct0", "kv0"⟩ [("c1id", ⟨"u", "t", []⟩)] ⟨"u", "t", []⟩
    (by decide) (by decide) rfl (by decide) (by decide) (by decide)

theorem addMessageToChat_fail_closed (userId chatId text sender msgId : String)
    (ts : Nat) (encrypt : String → Option EncryptResult) (updOk : Bool)
    (store : List (String × ChatDoc))
    (h : (addMessageToChatRun userId chatId text sender encrypt updOk msgId
            ts store).errorMsg.isSome = true) :
    (addMessageToChatRun userId chatId text sender encrypt updOk msgId ts store).store
      = store := by
  by_cases h1 : userId = "" ∨ chatId = ""
  · simp [addMessageToChatRun, h1]
  · by_cases h2 : jsTrim text = "" ∨ sender = ""
    · simp [addMessageToChatRun, h1, h2]
    · cases he2 : encrypt (jsTrim text) with
      | none => simp [addMessageToChatRun, h1, h2, he2]
      | some er2 =>
        cases updOk with
        | false => simp [addMessageToChatRun, h1, h2, he2]
        | true =>
          cases hg : mapGet store chatId with
          | none => simp [addMessageToChatRun, h1, h2, he2, hg]
          | some d => simp [addMessageToChatRun, h1, h2, he2, hg] at h

/-- C7 counterexample: in `createNewChat`, when `addDoc` succeeds but the
first-message `updateDoc` fails, the call surfaces an error yet the store
retains a chat document with an EMPTY message list — exactly the partial
state the claim says cannot become visible. -/
theorem c7_counterexample_empty_chat_persisted :
    createNewChatRun "u" "Hello" (fun _ => some ⟨"ct0", "kv0"⟩) true false
        "c1" "m1" 0 []
      = ⟨[("c1", { userId := "u", title := "Hello", messages := [] })],
         some "Failed to create chat.", none⟩ := by
  decide

/-- C7 (amended): `addMessageToChat` and `deleteChat` fail closed — any
failure leaves the document store unchanged — and `createNewChat` fails
closed for an encryption failure or a failure of the chat-document
creation; but a failure of the first-message append AFTER the chat document
was created surfaces an error while leaving the newly created chat document
with an empty message list in the store (and a failed `deleteChat` has
already purged the chat's per-message retry state before the store call). -/
theorem c7_fail_closed_boundaries (userId text sender chatId msgId : String)
    (ts : Nat) (encrypt : String → Option EncryptResult) (er : EncryptResult)
    (updOk : Bool) (store : List (String × ChatDoc))
    (retryCounts : List (String × Nat)) (mids : List String)
    (hu : ¬userId = "") (ht : ¬jsTrim text = "")
    (he : encrypt (jsTrim text) = some er) :
    (∀ enc2 : String → Option EncryptResult, enc2 (jsTrim text) = none →
      (createNewChatRun userId text enc2 true updOk chatId msgId ts store).store
        = store) ∧
    (createNewChatRun userId text encrypt false updOk chatId msgId ts store).store
      = store ∧
    ((createNewChatRun userId text encrypt true false chatId msgId ts store).store
        = mapSet store chatId
            { userId := userId, title := chatTitle text, messages := [] } ∧
      (createNewChatRun userId text encrypt true false chatId msgId
          ts store).errorMsg.isSome = true) ∧
    (∀ (updOk2 : Bool) (st2 : List (String × ChatDoc)),
      (addMessageToChatRun userId chatId text sender encrypt updOk2 msgId
          ts st2).errorMsg.isSome = true →
      (addMessageToChatRun userId chatId text sender encrypt updOk2 msgId
          ts st2).store = st2) ∧
    (deleteChatRun userId chatId false mids retryCounts store).1 = store ∧
    (deleteChatRun userId chatId false mids retryCounts store).2.1
      = mids.foldl (fun r mid => mapDelete r mid) retryCounts := by
  refine ⟨?_, ?_, ⟨?_, ?_⟩, ?_, ?_, ?_⟩
  · intro enc2 hnone
    simp [createNewChatRun, hu, ht, hnone]
  · simp [createNewChatRun, hu, ht, he]
  · simp [createNewChatRun, hu, ht, he]
  · simp [createNewChatRun, hu, ht, he]
  · intro updOk2 st2 herr
    exact addMessageToChat_fail_closed userId chatId text sender msgId ts
      encrypt updOk2 st2 herr
  · simp [deleteChatRun, hu]
  · simp [deleteChatRun, hu]

/-- Witness for C7 (amended) at concrete inputs. -/
theorem c7_fail_closed_boundaries_witness :
    (∀ enc2 : String → Option EncryptResult, enc2 (jsTrim "Hello") = none →
      (createNewChatRun "u" "Hello" enc2 true true "c1" "m1" 0 []).store = []) ∧
    (createNewChatRun "u" "Hello" (fun _ => some ⟨"ct0", "kv0"⟩) false true
        "c1" "m1" 0 []).store = [] ∧
    ((createNewChatRun "u" "Hello" (fun _ => some ⟨"ct0", "kv0"⟩) true false
        "c1" "m1" 0 []).store
        = mapSet [] "c1" { userId := "u", title := chatTitle "Hello", messages := [] } ∧
      (createNewChatRun "u" "Hello" (fun _ => some ⟨"ct0", "kv0"⟩) true false
          "c1" "m1" 0 []).errorMsg.isSome = true) ∧
    (∀ (updOk2 : Bool) (st2 : List (String × ChatDoc)),
      (addMessageToChatRun "u" "c1" "Hello" "bot" (fun _ => some ⟨"ct0", "kv0"⟩)
          updOk2 "m1" 0 st2).errorMsg.isSome = true →
      (addMessageToChatRun "u" "c1" "Hello" "bot" (fun _ => some ⟨"ct0", "kv0"⟩)
          updOk2 "m1" 0 st2).store = st2) ∧
    (deleteChatRun "u" "c1" false ["m1"] [("m1", 1)] []).1 = [] ∧
    (deleteChatRun "u" "c1" false ["m1"] [("m1", 1)] []).2.1
      = ["m1"].foldl (fun r mid => mapDelete r mid) [("m1", 1)] :=
  c7_fail_closed_boundaries "u" "Hello" "bot" "c1" "m1" 0
    (fun _ => some ⟨"ct0", "kv0"⟩) ⟨"ct0", "kv0"⟩ true [] [("m1", 1)] ["m1"]
    (by decide) (by decide) rfl

/-- `MAX_DECRYPTION_RETRIES` in useChatStore.js. -/
def MAX_DECRYPTION_RETRIES : Nat := 3

/-- `DECRYPTION_RETRY_DELAY` in useChatStore.js (milliseconds). -/
def DECRYPTION_RETRY_DELAY : Nat := 1000

/-- State threaded through `decryptSingleMessage`: the decrypted-message
cache, the per-message retry counts (`retryCountsRef`), plus two logs — the
attempt numbers at which a decrypt call was issued, and the backoff delays
scheduled between attempts. -/
structure RetryRunState where
  cache : List (String × String)
  retryCounts : List (String × Nat)
  attempts : List Nat
  delays : List Nat
deriving DecidableEq

/-- `decryptSingleMessage` (useChatStore.js) specialised to a decrypt call
that rejects on every attempt, with the scheduled-retry timer modelled as
firing (the recursive call). Mirrors the source: read the retry count
(0 when absent); if it already reached `MAX_DECRYPTION_RETRIES`, cache the
limit-reached marker and stop; otherwise issue attempt `retryCount + 1`;
on the rejection, if `retryCount < MAX_DECRYPTION_RETRIES - 1`, schedule a
retry after `DECRYPTION_RETRY_DELAY * 2 ^ retryCount` and bump the count;
otherwise cache "[Error al descifrar]" and delete the retry count. -/
def decryptSingleMessageAllFail (fuel : Nat) (msgId : String)
    (s : RetryRunState) : RetryRunState :=
  match fuel with
  | 0 => s
  | Nat.succ fuel =>
    let retryCount := (mapGet s.retryCounts msgId).getD 0
    if MAX_DECRYPTION_RETRIES ≤ retryCount then
      { s with cache := (mapSet s.cache msgId
          "[Error al descifrar - Límite de reintentos alcanzado]") }
    else
      let s1 := { s with attempts := s.attempts ++ [retryCount + 1] }
      if retryCount < MAX_DECRYPTION_RETRIES - 1 then
        let delay := DECRYPTION_RETRY_DELAY * 2 ^ retryCount
        let s2 := { s1 with delays := s1.delays ++ [delay],
                            retryCounts := mapSet s1.retryCounts msgId (retryCount + 1) }
        decryptSingleMessageAllFail fuel msgId s2
      else
        { s1 with cache := mapSet s1.cache msgId "[Error al descifrar]",
                  retryCounts := mapDelete s1.retryCounts msgId }

/-- C3: for every message whose decrypt call rejects on every attempt,
exactly 3 attempts are issued (no 4th — ample fuel is provided and the run
stops by itself), the scheduled backoff delays are 1000ms before attempt 2
and 2000ms before attempt 3, and after the final failure the terminal
marker "[Error al descifrar]" is cached and the retry state is deleted. -/
theorem c3_retry_three_attempts_backoff_terminal (msgId : String) :
    (decryptSingleMessageAllFail 10 msgId ⟨[], [], [], []⟩).attempts = [1, 2, 3] ∧
    (decryptSingleMessageAllFail 10 msgId ⟨[], [], [], []⟩).delays = [1000, 2000] ∧
    mapGet (decryptSingleMessageAllFail 10 msgId ⟨[], [], [], []⟩).cache msgId
      = some "[Error al descifrar]" ∧
    mapGet (decryptSingleMessageAllFail 10 msgId ⟨[], [], [], []⟩).retryCounts msgId
      = none := by
  simp [decryptSingleMessageAllFail, mapGet, mapSet, mapDelete,
    MAX_DECRYPTION_RETRIES, DECRYPTION_RETRY_DELAY]

/-- State visible to the 30-second decryption timeout handler in
`decryptSingleMessage` (useChatStore.js): the in-flight id set
(`decryptingMessageIds`), the cache, the retry counts, and a log of the
backoff delays it schedules (the handler schedules none). -/
structure TimeoutCtx where
  decrypting : List String
  cache : List (String × String)
  retryCounts : List (String × Nat)
  scheduledRetryDelays : List Nat
deriving DecidableEq

/-- The `setTimeout(DECRYPTION_TIMEOUT)` handler: if the message is still
marked as decrypting, remove that mark and write the timeout marker
"[Error al descifrar - Tiempo agotado]" to the cache. It touches neither
the retry counts nor any retry timer. -/
def decryptionTimeoutFires (msgId : String) (s : TimeoutCtx) : TimeoutCtx :=
  if s.decrypting.contains msgId then
    { s with decrypting := s.decrypting.erase msgId,
             cache := mapSet s.cache msgId "[Error al descifrar - Tiempo agotado]" }
  else s

/-- C4 counterexample: a message is in flight on its first attempt (zero
recorded attempts) when the 30s timeout fires. The handler immediately
writes the timeout error marker to the cache, does NOT increment the
attempt count (retry counts stay empty) and schedules NO retry — contrary
to the claim that the timeout counts as one attempt and that a retry with
backoff is scheduled instead of a terminal marker being written. -/
theorem c4_counterexample_timeout_writes_marker :
    decryptionTimeoutFires "m1" ⟨["m1"], [], [], []⟩
      = ⟨[], [("m1", "[Error al descifrar - Tiempo agotado]")], [], []⟩ := by
  decide

/-- C4 (amended): whenever the 30-second timeout fires while the message is
still marked in flight, the handler clears the in-flight mark and
immediately writes the timeout error marker to the cache; it neither
increments the per-message attempt count nor schedules a backoff retry —
the retry policy runs only if the underlying decrypt call itself later
rejects. -/
theorem c4_timeout_marker_no_retry (msgId : String) (s : TimeoutCtx)
    (h : s.decrypting.contains msgId = true) :
    (decryptionTimeoutFires msgId s).cache
      = mapSet s.cache msgId "[Error al descifrar - Tiempo agotado]" ∧
    (decryptionTimeoutFires msgId s).retryCounts = s.retryCounts ∧
    (decryptionTimeoutFires msgId s).scheduledRetryDelays = s.scheduledRetryDelays ∧
    (decryptionTimeoutFires msgId s).decrypting = s.decrypting.erase msgId := by
  have hm : msgId ∈ s.decrypting := by simpa using h
  simp [decryptionTimeoutFires, hm]

/-- Witness for C4 (amended) at a concrete in-flight message. -/
theorem c4_timeout_marker_no_retry_witness :
    (decryptionTimeoutFires "m1" ⟨["m1"], [("x", "p")], [("m1", 1)], [1000]⟩).cache
      = mapSet [("x", "p")] "m1" "[Error al descifrar - Tiempo agotado]" ∧
    (decryptionTimeoutFires "m1" ⟨["m1"], [("x", "p")], [("m1", 1)], [1000]⟩).retryCounts
      = [("m1", 1)] ∧
    (decryptionTimeoutFires "m1"
        ⟨["m1"], [("x", "p")], [("m1", 1)], [1000]⟩).scheduledRetryDelays = [1000] ∧
    (decryptionTimeoutFires "m1" ⟨["m1"], [("x", "p")], [("m1", 1)], [1000]⟩).decrypting
      = ["m1"].erase "m1" :=
  c4_timeout_marker_no_retry "m1" ⟨["m1"], [("x", "p")], [("m1", 1)], [1000]⟩ (by decide)

/-- `MAX_CONCURRENT_DECRYPTIONS` in useChatStore.js. -/
def MAX_CONCURRENT_DECRYPTIONS : Nat := 5

/-- The fields of a Firestore message that the decryption pipeline reads. -/
structure PipelineMessage where
  id : String
  messageCiphertextKMS : String
  kmsKeyVersionName : String
deriving DecidableEq

/-- State shared by `queueBatchDecryption` / `decryptMessageIfNeeded`
(useChatStore.js): the decrypted-message cache, the in-flight id set
(`decryptingMessageIds`), and the batch queue
(`batchDecryptionQueueRef`). -/
structure BatchState where
  cache : List (String × String)
  decrypting : List String
  batchQueue : List PipelineMessage
deriving DecidableEq

/-- `queueBatchDecryption`: return unchanged when the message has no
ciphertext or is already cached; otherwise push it onto the batch queue
(and re-arm the debounce timer — not represented in the state). It does
NOT check whether the message is already in the queue. -/
def queueBatchDecryption (msg : PipelineMessage) (s : BatchState) : BatchState :=
  if msg.messageCiphertextKMS = "" ∨ (mapGet s.cache msg.id).isSome = true then s
  else { s with batchQueue := s.batchQueue ++ [msg] }

/-- `decryptMessageIfNeeded`: no-op when the message lacks ciphertext or a
key version, is already cached, or is in the in-flight set; otherwise hand
it to `queueBatchDecryption`. -/
def decryptMessageIfNeeded (msg : PipelineMessage) (s : BatchState) : BatchState :=
  if msg.messageCiphertextKMS = "" ∨ msg.kmsKeyVersionName = "" ∨
      (mapGet s.cache msg.id).isSome = true ∨ s.decrypting.contains msg.id = true then
    s
  else queueBatchDecryption msg s

/-- The message ids for which `processBatchDecryption` issues decrypt calls
when the debounce timer fires: one call per entry of the first
`MAX_CONCURRENT_DECRYPTIONS` queue slots. -/
def dispatchedBatchIds (s : BatchState) : List String :=
  (s.batchQueue.take MAX_CONCURRENT_DECRYPTIONS).map PipelineMessage.id

/-- C5 counterexample: enqueueing the same uncached message twice before
the debounce fires pushes it onto the batch queue twice — neither
`decryptMessageIfNeeded` nor `queueBatchDecryption` checks the queue — so
the dispatched batch issues TWO decrypt calls for the one id, refuting the
claim that a double enqueue produces exactly one decrypt call. -/
theorem c5_counterexample_double_enqueue_two_calls :
    dispatchedBatchIds
        (decryptMessageIfNeeded ⟨"m1", "ct", "kv"⟩
          (decryptMessageIfNeeded ⟨"m1", "ct", "kv"⟩ ⟨[], [], []⟩))
      = ["m1", "m1"] := by decide

/-- C5 (amended): enqueue is a no-op when the message is already cached or
its id is in the in-flight set, but pending membership in the batch queue
itself is never checked: enqueueing an uncached, not-in-flight message
twice before the debounce fires places it in the queue twice, so the batch
dispatch issues two decrypt calls for the same message identifier. -/
theorem c5_enqueue_dedup_boundaries (msg : PipelineMessage) (s : BatchState)
    (h1 : ¬msg.messageCiphertextKMS = "") (h2 : ¬msg.kmsKeyVersionName = "")
    (h3 : (mapGet s.cache msg.id).isSome = false)
    (h4 : s.decrypting.contains msg.id = false) :
    (decryptMessageIfNeeded msg (decryptMessageIfNeeded msg s)).batchQueue
      = s.batchQueue ++ [msg, msg] ∧
    (∀ s2 : BatchState, (mapGet s2.cache msg.id).isSome = true →
      decryptMessageIfNeeded msg s2 = s2) := by
  have h3n : mapGet s.cache msg.id = none := by
    cases hg : mapGet s.cache msg.id with
    | none => rfl
    | some v => rw [hg] at h3; simp at h3
  have h4m : msg.id ∉ s.decrypting := by simpa using h4
  have step1 : decryptMessageIfNeeded msg s
      = { s with batchQueue := s.batchQueue ++ [msg] } := by
    simp [decryptMessageIfNeeded, queueBatchDecryption, h1, h2, h3n, h4m]
  have step2 : decryptMessageIfNeeded msg { s with batchQueue := s.batchQueue ++ [msg] }
      = { s with batchQueue := (s.batchQueue ++ [msg]) ++ [msg] } := by
    simp [decryptMessageIfNeeded, queueBatchDecryption, h1, h2, h3n, h4m]
  constructor
  · rw [step1, step2]
    simp
  · intro s2 hc
    simp [decryptMessageIfNeeded, hc]

/-- Witness for C5 (amended) at a concrete message and empty state. -/
theorem c5_enqueue_dedup_boundaries_witness :
    (decryptMessageIfNeeded ⟨"m1", "ct", "kv"⟩
        (decryptMessageIfNeeded ⟨"m1", "ct", "kv"⟩ ⟨[], [], []⟩)).batchQueue
      = ([] : List PipelineMessage) ++ [⟨"m1", "ct", "kv"⟩, ⟨"m1", "ct", "kv"⟩] ∧
    (∀ s2 : BatchState, (mapGet s2.cache "m1").isSome = true →
      decryptMessageIfNeeded ⟨"m1", "ct", "kv"⟩ s2 = s2) :=
  c5_enqueue_dedup_boundaries ⟨"m1", "ct", "kv"⟩ ⟨[], [], []⟩
    (by decide) (by decide) (by decide) (by decide)

/-- `batchDecryptMessages` (apiService.js): `Promise.allSettled` over
per-item decrypt calls — it NEVER rejects; a fulfilled item yields its
plaintext and a rejected item is mapped to the sentinel
`{ plaintext: '[Error: Failed to decrypt]' }`. The `decryptOne` oracle
returns `none` for a rejected per-item call. -/
def batchDecryptMessages (decryptOne : String → String → Option String)
    (encryptedMessages : List (String × String)) : List String :=
  encryptedMessages.map (fun p =>
    match decryptOne p.1 p.2 with
    | some plaintext => plaintext
    | none => "[Error: Failed to decrypt]")

/-- Pipeline state for `processBatchDecryption` (useChatStore.js), with a
log of the messages handed to the `decryptSingleMessage` fallback (the
`catch` branch — reachable only if the batch call itself rejects, which
the `Promise.allSettled`-based `batchDecryptMessages` never does). -/
structure PipelineState where
  batchQueue : List PipelineMessage
  cache : List (String × String)
  retryCounts : List (String × Nat)
  singleRetryCalls : List String
deriving DecidableEq

/-- One firing of `processBatchDecryption`: splice the first
`MAX_CONCURRENT_DECRYPTIONS` messages off the queue, call
`batchDecryptMessages`, and write each result with a truthy (nonempty)
`plaintext` into the cache. Since the batch call resolves, the `catch`
fallback to `decryptSingleMessage` is not taken and the retry counts are
untouched. -/
def processBatchDecryptionOnce (decryptOne : String → String → Option String)
    (s : PipelineState) : PipelineState :=
  if s.batchQueue.isEmpty then s
  else
    let batch := s.batchQueue.take MAX_CONCURRENT_DECRYPTIONS
    let remaining := s.batchQueue.drop MAX_CONCURRENT_DECRYPTIONS
    let results := batchDecryptMessages decryptOne
      (batch.map (fun m => (m.messageCiphertextKMS, m.kmsKeyVersionName)))
    let cache1 := (batch.zip results).foldl
      (fun c p => if p.2 = "" then c else mapSet c p.1.id p.2) s.cache
    { s with batchQueue := remaining, cache := cache1 }

/-- C6 counterexample: a batch whose single item fails transiently: the
batch call resolves (allSettled) with the sentinel plaintext, which is
cached as the message's value; the retry counts stay empty and nothing is
handed to the single-item retry path — a permanent error value is cached
without the retry policy ever running, refuting the claim. -/
theorem c6_counterexample_sentinel_cached_without_retry :
    processBatchDecryptionOnce (fun _ _ => none) ⟨[⟨"m1", "ct", "kv"⟩], [], [], []⟩
      = ⟨[], [("m1", "[Error: Failed to decrypt]")], [], []⟩ := by decide

/-- C6 (amended): a per-item decryption failure inside a dispatched batch
never rejects the batch call — `Promise.allSettled` converts it to the
sentinel plaintext "[Error: Failed to decrypt]" — so `processBatchDecryption`
caches that sentinel as if it were the decrypted text, hands nothing to the
single-item retry path, and leaves the retry counts untouched; the
batch-failure fallback to per-message retry is unreachable for per-item
failures. -/
theorem c6_per_item_failure_caches_sentinel
    (decryptOne : String → String → Option String) (m : PipelineMessage)
    (cache : List (String × String)) (rc : List (String × Nat)) (src : List String)
    (h : decryptOne m.messageCiphertextKMS m.kmsKeyVersionName = none) :
    processBatchDecryptionOnce decryptOne ⟨[m], cache, rc, src⟩
      = ⟨[], mapSet cache m.id "[Error: Failed to decrypt]", rc, src⟩ := by
  simp [processBatchDecryptionOnce, batchDecryptMessages, h,
    MAX_CONCURRENT_DECRYPTIONS]

/-- Witness for C6 (amended) at a concrete failing item. -/
theorem c6_per_item_failure_caches_sentinel_witness :
    processBatchDecryptionOnce (fun _ _ => none)
        ⟨[⟨"m2", "ct2", "kv2"⟩], [("x", "p")], [("y", 1)], ["z"]⟩
      = ⟨[], mapSet [("x", "p")] "m2" "[Error: Failed to decrypt]",
         [("y", 1)], ["z"]⟩ :=
  c6_per_item_failure_caches_sentinel (fun _ _ => none) ⟨"m2", "ct2", "kv2"⟩
    [("x", "p")] [("y", 1)] ["z"] rfl

/-- `maxRetries` inside `makeAuthenticatedRequest` (apiService.js). -/
def AUTH_MAX_RETRIES : Nat := 2

/-- `makeAuthenticatedRequest` (apiService.js), reduced to its auth-retry
control flow: `statuses i` is the HTTP status the i-th fetch returns. On a
401/403 with `retryCount < maxRetries` the cached token is cleared and the
request re-issued with `retryCount + 1`; otherwise the response is returned
as is. The result is the surfaced status and the number of fetches made.
Fuel bounds the recursion (3 suffices; extra fuel is never consumed). -/
def makeAuthenticatedRequestRun (statuses : Nat → Nat) :
    Nat → Nat → Nat → Nat × Nat
  | 0, _, _ => (0, 0)
  | Nat.succ fuel, callIdx, retryCount =>
    let status := statuses callIdx
    if (status = 401 ∨ status = 403) ∧ retryCount < AUTH_MAX_RETRIES then
      let r := makeAuthenticatedRequestRun statuses fuel (callIdx + 1) (retryCount + 1)
      (r.1, r.2 + 1)
    else (status, 1)

/-- C8 counterexample: with every fetch returning 401, the function issues
THREE fetches (the original plus two transparent retries) before surfacing
the 401 — `maxRetries = 2` — refuting the claim that exactly one transparent
retry is attempted and that a second consecutive auth failure is surfaced
without another retry. -/
theorem c8_counterexample_two_retries :
    makeAuthenticatedRequestRun (fun _ => 401) 10 0 0 = (401, 3) := by decide

/-- C8 (amended): on an authentication failure (401/403) the request is
transparently re-issued with a refreshed credential up to TWO times
(`maxRetries = 2`, so up to three fetches in all): three consecutive auth
failures surface the third failing status after exactly 3 fetches, and an
auth failure followed by a success surfaces the success after exactly 2
fetches. -/
theorem c8_auth_retry_policy (statuses : Nat → Nat)
    (h0 : statuses 0 = 401 ∨ statuses 0 = 403)
    (h1 : statuses 1 = 401 ∨ statuses 1 = 403)
    (h2 : statuses 2 = 401 ∨ statuses 2 = 403) :
    makeAuthenticatedRequestRun statuses 10 0 0 = (statuses 2, 3) ∧
    (∀ st : Nat → Nat, (st 0 = 401 ∨ st 0 = 403) →
      ¬(st 1 = 401 ∨ st 1 = 403) →
      makeAuthenticatedRequestRun st 10 0 0 = (st 1, 2)) := by
  constructor
  · have e1 : makeAuthenticatedRequestRun statuses 10 0 0
        = ((makeAuthenticatedRequestRun statuses 9 1 1).1,
           (makeAuthenticatedRequestRun statuses 9 1 1).2 + 1) := by
      simp [makeAuthenticatedRequestRun, h0, AUTH_MAX_RETRIES]
    have e2 : makeAuthenticatedRequestRun statuses 9 1 1
        = ((makeAuthenticatedRequestRun statuses 8 2 2).1,
           (makeAuthenticatedRequestRun statuses 8 2 2).2 + 1) := by
      simp [makeAuthenticatedRequestRun, h1, AUTH_MAX_RETRIES]
    have e3 : makeAuthenticatedRequestRun statuses 8 2 2 = (statuses 2, 1) := by
      simp [makeAuthenticatedRequestRun, AUTH_MAX_RETRIES]
    rw [e1, e2, e3]
  · intro st hs0 hs1
    have e1 : makeAuthenticatedRequestRun st 10 0 0
        = ((makeAuthenticatedRequestRun st 9 1 1).1,
           (makeAuthenticatedRequestRun st 9 1 1).2 + 1) := by
      simp [makeAuthenticatedRequestRun, hs0, AUTH_MAX_RETRIES]
    have e2 : makeAuthenticatedRequestRun st 9 1 1 = (st 1, 1) := by
      simp [makeAuthenticatedRequestRun, hs1, AUTH_MAX_RETRIES]
    rw [e1, e2]

/-- Witness for C8 (amended): all fetches return 401. -/
theorem c8_auth_retry_policy_witness :
    makeAuthenticatedRequestRun (fun _ => 401) 10 0 0 = ((fun _ => 401) 2, 3) ∧
    (∀ st : Nat → Nat, (st 0 = 401 ∨ st 0 = 403) →
      ¬(st 1 = 401 ∨ st 1 = 403) →
      makeAuthenticatedRequestRun st 10 0 0 = (st 1, 2)) :=
  c8_auth_retry_policy (fun _ => 401) (Or.inl rfl) (Or.inl rfl) (Or.inl rfl)

/-- `CHAT_PAGE_SIZE` in useChatStore.js. -/
def CHAT_PAGE_SIZE : Nat := 10

/-- The chat-list pagination state of the hook: the loaded chat ids, the
`hasMore` and `loadingMore` flags, and the pagination cursor
(`lastVisibleChatRef`, the last document seen). -/
structure SyncState where
  chats : List String
  hasMore : Bool
  loadingMore : Bool
  lastVisible : Option String
deriving DecidableEq

/-- `loadMoreChats` (useChatStore.js): guard (`!userId || loadingMore ||
!hasMore || !lastVisibleChatRef.current`) returns without querying;
otherwise one query `startAfter(cursor), limit(CHAT_PAGE_SIZE)` is issued
(`page` is what the store returns for it; the second component records the
cursor of the issued query, `none` when no query was made). An empty page
just sets `hasMore := false`; otherwise the page is appended to the chat
list, the cursor advances to the page's last document, and
`hasMore := (page.length == CHAT_PAGE_SIZE)`. -/
def loadMoreChats (userId : String) (page : List String) (s : SyncState) :
    SyncState × Option String :=
  if userId = "" ∨ s.loadingMore = true ∨ s.hasMore = false ∨ s.lastVisible = none then
    (s, none)
  else
    match s.lastVisible with
    | none => (s, none)
    | some cursor =>
      if page.isEmpty then
        ({ s with hasMore := false, loadingMore := false }, some cursor)
      else
        ({ chats := s.chats ++ page,
           hasMore := decide (page.length = CHAT_PAGE_SIZE),
           loadingMore := false,
           lastVisible := page.getLast? }, some cursor)

/-- C9: when `hasMore` is false the call is a no-op issuing no query; when
the guard passes, exactly one query starting after the stored cursor is
issued, the returned page (at most 10 items, as `limit(10)` guarantees) is
appended to — never replaces — the existing list, and afterwards `hasMore`
holds exactly when the page contained the full 10 items, so any page of
fewer than 10 (the empty page included) makes `hasMore` false and all
further calls no-ops. -/
theorem c9_load_more_pagination (userId : String) (page : List String)
    (s : SyncState) (cursor : String)
    (hlen : page.length ≤ CHAT_PAGE_SIZE)
    (hu : ¬userId = "") (hl : s.loadingMore = false)
    (hc : s.lastVisible = some cursor) :
    (s.hasMore = false → loadMoreChats userId page s = (s, none)) ∧
    (s.hasMore = true →
      (loadMoreChats userId page s).2 = some cursor ∧
      (loadMoreChats userId page s).1.chats = s.chats ++ page ∧
      ((loadMoreChats userId page s).1.hasMore = true ↔
        page.length = CHAT_PAGE_SIZE)) := by
  constructor
  · intro hm
    simp [loadMoreChats, hm]
  · intro hm
    by_cases hp : page.isEmpty
    · have hpn : page = [] := List.isEmpty_iff.mp hp
      subst hpn
      refine ⟨?_, ?_, ?_⟩
      · simp [loadMoreChats, hu, hl, hm, hc]
      · simp [loadMoreChats, hu, hl, hm, hc]
      · simp [loadMoreChats, hu, hl, hm, hc, CHAT_PAGE_SIZE]
    · refine ⟨?_, ?_, ?_⟩
      · simp [loadMoreChats, hu, hl, hm, hc, hp]
      · simp [loadMoreChats, hu, hl, hm, hc, hp]
      · simp [loadMoreChats, hu, hl, hm, hc, hp]

/-- Witness for C9: one full page of 10 new chats after cursor "c20". -/
theorem c9_load_more_pagination_witness :
    ((⟨["c20"], true, false, some "c20"⟩ : SyncState).hasMore = false →
      loadMoreChats "u" ["d1", "d2", "d3", "d4", "d5", "d6", "d7", "d8", "d9", "d10"]
          ⟨["c20"], true, false, some "c20"⟩
        = (⟨["c20"], true, false, some "c20"⟩, none)) ∧
    ((⟨["c20"], true, false, some "c20"⟩ : SyncState).hasMore = true →
      (loadMoreChats "u" ["d1", "d2", "d3", "d4", "d5", "d6", "d7", "d8", "d9", "d10"]
          ⟨["c20"], true, false, some "c20"⟩).2 = some "c20" ∧
      (loadMoreChats "u" ["d1", "d2", "d3", "d4", "d5", "d6", "d7", "d8", "d9", "d10"]
          ⟨["c20"], true, false, some "c20"⟩).1.chats
        = ["c20"] ++ ["d1", "d2", "d3", "d4", "d5", "d6", "d7", "d8", "d9", "d10"] ∧
      ((loadMoreChats "u" ["d1", "d2", "d3", "d4", "d5", "d6", "d7", "d8", "d9", "d10"]
          ⟨["c20"], true, false, some "c20"⟩).1.hasMore = true ↔
        (["d1", "d2", "d3", "d4", "d5", "d6", "d7", "d8", "d9", "d10"] : List String).length
          = CHAT_PAGE_SIZE)) :=
  c9_load_more_pagination "u" ["d1", "d2", "d3", "d4", "d5", "d6", "d7", "d8", "d9", "d10"]
    ⟨["c20"], true, false, some "c20"⟩ "c20" (by decide) (by decide) rfl rfl
